import Mathlib

/-!
Shallow embedding of `src/Selenium2Library/robotlibcore.py` (PythonLibCore):
the `HybridCore` keyword registry and the `DynamicCore` dispatcher built on it.

Python callables carrying the `robot_name` exposure attribute are modelled by
`KwFunc`; arbitrary attribute values by `PyVal`; providers ("libraries") by
`Library`; the registry object by `Core`.  Python `dict` construction and
update are modelled on association lists with Python's semantics (first
insertion fixes the position of a key, a later insertion overrides the value).
Fallible operations return `Except PyErr`.
-/

namespace RobotLibCore

/-! ### Data model: Python values, exceptions, callables -/

/-- Python values, as far as this module manipulates them. -/
inductive Val where
  | vint (n : Int)
  | vstr (s : String)
  | vbool (b : Bool)
  | vnone
deriving Repr, DecidableEq

/-- Python `str()` of a value, as used by `'{}={}'.format(name, value)`. -/
def Val.pystr : Val → String
  | .vint n => toString n
  | .vstr s => s
  | .vbool b => if b then "True" else "False"
  | .vnone => "None"

/-- The Python exceptions `robotlibcore.py` can produce. -/
inductive PyErr where
  | keyError (key : String)
  | typeError (msg : String)
  | attributeError (msg : String)
deriving Repr, DecidableEq

/-- Python `repr()` of a plain string (as produced by `'{!r}'.format(s)`). -/
def pyrepr (s : String) : String := "'" ++ s ++ "'"

/-- A Python callable as the registry sees it: the exposure metadata written by
the `keyword` decorator (`robot_name`, `robot_tags`), its docstring, its
`inspect.getargspec` data (`argNames` = `spec.args`, including the `self` slot
when `isMethod`), and its behaviour when called. -/
structure KwFunc where
  hasRobotName : Bool
  robotName : Option String
  robotTags : List String
  doc : String
  isMethod : Bool
  argNames : List String
  defaults : List Val
  varargs : Option String
  kwargsName : Option String
  body : List Val → List (String × Val) → Except PyErr Val

/-- An attribute value of a provider: either a non-callable plain value or a
callable. -/
inductive PyVal where
  | data (v : Val)
  | func (f : KwFunc)

/-! ### Python dict semantics on association lists -/

/-- `d[k] = v` on a Python dict: overrides the value in place if the key is
present, otherwise appends the pair (insertion order). -/
def dictInsert (d : List (String × PyVal)) (k : String) (v : PyVal) :
    List (String × PyVal) :=
  match d with
  | [] => [(k, v)]
  | kv :: rest => if kv.1 = k then (k, v) :: rest else kv :: dictInsert rest k v

/-- `d.update(ps)`: insert every pair of `ps` in order. -/
def dictUpdate (d : List (String × PyVal)) (ps : List (String × PyVal)) :
    List (String × PyVal) :=
  ps.foldl (fun d kv => dictInsert d kv.1 kv.2) d

/-- `dict(ps)`: build a dict from an iterable of pairs. -/
def dictOf (ps : List (String × PyVal)) : List (String × PyVal) :=
  dictUpdate [] ps

/-- `k in d` / `d.get(k)`: value stored at a key, if any. -/
def dictLookup (d : List (String × PyVal)) (k : String) : Option PyVal :=
  (d.find? (fun kv => kv.1 = k)).map (fun kv => kv.2)

/-- `d[k]` subscript access: raises `KeyError(k)` on a missing key. -/
def dictGet (d : List (String × PyVal)) (k : String) : Except PyErr PyVal :=
  match dictLookup d k with
  | some v => .ok v
  | none => .error (.keyError k)

/-- The value attached to the LAST pair of `ps` carrying key `k`, if any:
what a Python dict retains when `ps` is inserted in order. -/
def lastVal : List (String × PyVal) → String → Option PyVal
  | [], _ => none
  | kv :: ps, k =>
    match lastVal ps k with
    | some v => some v
    | none => if kv.1 = k then some kv.2 else none

/-- First-`some` choice on options. -/
def optOr (a b : Option PyVal) : Option PyVal :=
  match a with
  | some v => some v
  | none => b

/-- The keys of a dict, in insertion order. -/
def dictKeys (d : List (String × PyVal)) : List String := d.map Prod.fst

/-! ### The string order used by Python sorted -/

/-- Code-point lexicographic strict comparison of character lists: how Python
compares `str` values. -/
def charListLt : List Char → List Char → Bool
  | _, [] => false
  | [], _ :: _ => true
  | a :: as, b :: bs =>
    if a < b then true
    else if a = b then charListLt as bs
    else false

/-- Python `a <= b` on strings. -/
def pyStrLe (a b : String) : Bool := ! charListLt b.data a.data

/-- Python `sorted` on strings: a stable sort under code-point order. -/
def pysorted (l : List String) : List String :=
  l.insertionSort (fun a b => pyStrLe a b = true)

/-- `inspect.getmembers`: (name, value) pairs sorted by name. -/
def sortPairsByName (ps : List (String × PyVal)) : List (String × PyVal) :=
  ps.insertionSort (fun a b => pyStrLe a.1 b.1 = true)

/-! ### Providers and member enumeration -/

/-- The shape of a provider, as `_get_members` distinguishes them:
a module, a bare (new-style) class, an old-style class instance, or a
new-style class instance. -/
inductive LibKind where
  | module
  | cls
  | oldStyle
  | inst
deriving Repr, DecidableEq

/-- A provider.  For a module, `clsMembers` are its top-level members and
`instMembers` is unused.  For an instance, `clsMembers` are the attributes
exposed by `type(instance)` and `instMembers` the instance-local attributes;
`clsName` is the `__name__` used in error messages. -/
structure Library where
  kind : LibKind
  clsName : String
  clsMembers : List (String × PyVal)
  instMembers : List (String × PyVal)

/-- Attribute lookup on the defining type (`getattr(cls, name)`). -/
def clsLookup (lib : Library) (n : String) : Option PyVal :=
  (lib.clsMembers.find? (fun kv => kv.1 = n)).map (fun kv => kv.2)

/-- Instance-local attribute lookup (`instance.__dict__[name]`). -/
def instLookup (lib : Library) (n : String) : Option PyVal :=
  (lib.instMembers.find? (fun kv => kv.1 = n)).map (fun kv => kv.2)

/-- `dir(instance)`: the sorted, duplicate-free attribute names reachable from
the instance (its type's attributes plus instance-local ones). -/
def dirNames (lib : Library) : List String :=
  pysorted ((lib.clsMembers.map Prod.fst ++ lib.instMembers.map Prod.fst).dedup)

/-- `hasattr(cls, name)` for the defining type. -/
def clsHasattr (lib : Library) (n : String) : Bool :=
  lib.clsMembers.any (fun kv => kv.1 = n)

/-- `HybridCore._get_members_from_instannce`: for each name in `dir(instance)`
resolve the value from the class when the class exposes the name, otherwise
from the instance, to avoid evaluating properties. -/
def get_members_from_instannce (lib : Library) : List (String × PyVal) :=
  (dirNames lib).map (fun n =>
    (n, match clsLookup lib n with
        | some v => v
        | none => (instLookup lib n).getD (.data .vnone)))

/-- `HybridCore._get_members`: modules are enumerated with
`inspect.getmembers`; classes and old-style instances are rejected with
`TypeError`; instances go through `_get_members_from_instannce`. -/
def getMembers (lib : Library) : Except PyErr (List (String × PyVal)) :=
  match lib.kind with
  | .module => .ok (sortPairsByName lib.clsMembers)
  | .cls => .error (.typeError
      ("Libraries must be modules or instances, got class " ++
        pyrepr lib.clsName ++ " instead."))
  | .oldStyle => .error (.typeError
      ("Libraries must be modules or new-style class instances, got " ++
        "old-style class " ++ pyrepr lib.clsName ++ " instead."))
  | .inst => .ok (get_members_from_instannce lib)

/-- `getattr(library, name)` as used on line 54: ordinary attribute lookup on
the provider (instance-local attributes shadow class attributes; for a module,
its members).  Total because the names fed to it come from the provider's own
enumeration. -/
def libGetattr (lib : Library) (n : String) : PyVal :=
  match lib.kind with
  | .module => (clsLookup lib n).getD (.data .vnone)
  | _ =>
    match instLookup lib n with
    | some v => v
    | none => (clsLookup lib n).getD (.data .vnone)

/-- `func.robot_name or name`: the exposed keyword name, falling back to the
member name when `robot_name` is `None` or empty (falsy). -/
def kwName (memberName : String) (f : KwFunc) : String :=
  match f.robotName with
  | some s => if s = "" then memberName else s
  | none => memberName

/-- The filter of `_find_keywords` applied to one enumerated member:
keep it when it is callable and has a `robot_name` attribute, keyed by
`robot_name or name`, valued by `getattr(library, name)`. -/
def exposedPairs (lib : Library) (members : List (String × PyVal)) :
    List (String × PyVal) :=
  members.filterMap (fun nv =>
    match nv.2 with
    | .func f => if f.hasRobotName then some (kwName nv.1 f, libGetattr lib nv.1) else none
    | .data _ => none)

/-- The (name, callable) pairs one provider contributes, or the enumeration
error. -/
def exposedOf (lib : Library) : Except PyErr (List (String × PyVal)) :=
  match getMembers lib with
  | .error e => .error e
  | .ok ms => .ok (exposedPairs lib ms)

/-- `HybridCore._find_keywords`: concatenate every provider's exposed pairs in
provider order; the first enumeration error aborts the generator. -/
def findKeywords : List Library → Except PyErr (List (String × PyVal))
  | [] => .ok []
  | l :: ls =>
    match exposedOf l with
    | .error e => .error e
    | .ok a =>
      match findKeywords ls with
      | .error e => .error e
      | .ok b => .ok (a ++ b)

/-- `HybridCore.__init__` body:
`self.keywords = dict(self._find_keywords(*libraries))` followed by
`self.keywords.update(self._find_keywords(self))`.  `selfLib` is the registry
object viewed as an instance provider. -/
def mkKeywords (selfLib : Library) (libs : List Library) :
    Except PyErr (List (String × PyVal)) :=
  match findKeywords libs with
  | .error e => .error e
  | .ok ps =>
    match findKeywords [selfLib] with
    | .error e => .error e
    | .ok ss => .ok (dictUpdate (dictOf ps) ss)

/-! ### The registry object and its operations -/

/-- The state of a `DynamicCore` registry after construction: the keyword
mapping, the per-instance `_get_keyword_tags_supported` flag, and the data
`inspect` reads off the object itself (`type(self).__name__`, `getdoc(self)`,
`getdoc(self.__init__)`, and `self.__init__` for `get_keyword_arguments`). -/
structure Core where
  clsName : String
  keywords : List (String × PyVal)
  tagsSupported : Bool
  selfDoc : String
  initDoc : String
  initFunc : KwFunc

/-- Registry construction (`DynamicCore.__init__` via `HybridCore.__init__`):
builds the keyword mapping or fails; `_get_keyword_tags_supported` starts
`False`. -/
def mkCore (selfLib : Library) (selfDoc initDoc : String) (initF : KwFunc)
    (libs : List Library) : Except PyErr Core :=
  match mkKeywords selfLib libs with
  | .error e => .error e
  | .ok kws =>
    .ok { clsName := selfLib.clsName, keywords := kws, tagsSupported := false,
          selfDoc := selfDoc, initDoc := initDoc, initFunc := initF }

/-- `HybridCore.get_keyword_names`: `sorted(self.keywords)`. -/
def get_keyword_names (c : Core) : List String :=
  pysorted (dictKeys c.keywords)

/-- `HybridCore.__getattr__`: the fallback hook, called only when ordinary
attribute lookup has failed. -/
def getattrFallback (c : Core) (name : String) : Except PyErr PyVal :=
  match dictLookup c.keywords name with
  | some v => .ok v
  | none => .error (.attributeError
      (pyrepr c.clsName ++ " object has no attribute " ++ pyrepr name))

/-- Full attribute resolution on the registry object: ordinary lookup over the
object's real attributes first, then the `__getattr__` fallback. -/
def resolveAttr (c : Core) (real : List (String × PyVal)) (name : String) :
    Except PyErr PyVal :=
  match dictLookup real name with
  | some v => .ok v
  | none => getattrFallback c name

/-- Python call binding for `f(*args, **kwargs)` on a callable with signature
data `f`: the parameter list visible to the caller (bound methods have already
consumed `self`), checked for surplus positional arguments, duplicate
bindings, unexpected keyword arguments, and missing mandatory arguments, in
which cases the interpreter raises `TypeError` before the body runs. -/
def callKw (f : KwFunc) (args : List Val) (kwargs : List (String × Val)) :
    Except PyErr Val :=
  let ps := if f.isMethod then f.argNames.drop 1 else f.argNames
  let nmand := ps.length - f.defaults.length
  let posNames := ps.take args.length
  if ps.length < args.length ∧ f.varargs = none then
    .error (.typeError "too many positional arguments")
  else if kwargs.any (fun kv => posNames.contains kv.1) then
    .error (.typeError "got multiple values for argument")
  else if f.kwargsName = none ∧ kwargs.any (fun kv => ¬ ps.contains kv.1) then
    .error (.typeError "got an unexpected keyword argument")
  else if ((ps.take nmand).drop args.length).any
      (fun p => ¬ kwargs.any (fun kv => kv.1 = p)) then
    .error (.typeError "missing required positional argument")
  else
    f.body args kwargs

/-- Calling an arbitrary attribute value: non-callables raise `TypeError`. -/
def callVal (v : PyVal) (args : List Val) (kwargs : List (String × Val)) :
    Except PyErr Val :=
  match v with
  | .data _ => .error (.typeError "object is not callable")
  | .func f => callKw f args kwargs

/-- `DynamicCore.run_keyword`: `self.keywords[name](*args, **kwargs)`. -/
def run_keyword (c : Core) (name : String) (args : List Val)
    (kwargs : List (String × Val)) : Except PyErr Val :=
  match dictGet c.keywords name with
  | .error e => .error e
  | .ok v => callVal v args kwargs

/-- `inspect.getargspec` of a registered value; non-callables are rejected by
`inspect` with `TypeError`. -/
def asFunc (v : PyVal) : Except PyErr KwFunc :=
  match v with
  | .data _ => .error (.typeError "unsupported callable")
  | .func f => .ok f

/-- `DynamicCore._get_arg_spec`: `spec.args` minus the leading `self` for a
bound method, split into mandatory names and (name, default) pairs via
`nargs = len(args) - len(defaults)`, plus the variadic names. -/
def get_arg_spec (f : KwFunc) :
    List String × List (String × Val) × Option String × Option String :=
  let args := if f.isMethod then f.argNames.drop 1 else f.argNames
  let nargs := args.length - f.defaults.length
  (args.take nargs, (args.drop nargs).zip f.defaults, f.varargs, f.kwargsName)

/-- `DynamicCore.get_keyword_arguments`: look the keyword up (the reserved
name `__init__` resolves to `self.__init__`), then render its argument
specification as descriptor strings. -/
def get_keyword_arguments (c : Core) (name : String) :
    Except PyErr (List String) :=
  match (if name = "__init__" then .ok (PyVal.func c.initFunc)
         else dictGet c.keywords name) with
  | .error e => .error e
  | .ok kw =>
    match asFunc kw with
    | .error e => .error e
    | .ok f =>
      let spec := get_arg_spec f
      .ok (spec.1 ++ spec.2.1.map (fun nv => nv.1 ++ "=" ++ nv.2.pystr)
        ++ (match spec.2.2.1 with
            | some va => ["*" ++ va]
            | none => [])
        ++ (match spec.2.2.2 with
            | some kwn => ["**" ++ kwn]
            | none => []))

/-- `robot_tags` attribute access on a registered value; values that never
went through the `keyword` decorator lack it. -/
def getRobotTags (v : PyVal) : Except PyErr (List String) :=
  match v with
  | .func f =>
    if f.hasRobotName then .ok f.robotTags
    else .error (.attributeError "robot_tags")
  | .data _ => .error (.attributeError "robot_tags")

/-- `DynamicCore.get_keyword_tags`: sets `_get_keyword_tags_supported = True`
first (line 118), THEN subscripts the mapping (line 119); returns the tag list
and the updated registry state. -/
def get_keyword_tags (c : Core) (name : String) :
    Except PyErr (List String) × Core :=
  let c' : Core := { c with tagsSupported := true }
  match dictLookup c'.keywords name with
  | some v => (getRobotTags v, c')
  | none => (.error (.keyError name), c')

/-- `inspect.getdoc(kw) or ''` on a registered value. -/
def pvDoc (v : PyVal) : String :=
  match v with
  | .func f => f.doc
  | .data _ => ""

/-- `DynamicCore.get_keyword_documentation`: pseudo-names `__intro__` and
`__init__` return the object-level docs; otherwise the keyword's docstring,
with a `Tags:` line appended when the keyword has tags and
`_get_keyword_tags_supported` was never set. -/
def get_keyword_documentation (c : Core) (name : String) :
    Except PyErr String :=
  if name = "__intro__" then .ok c.selfDoc
  else if name = "__init__" then .ok c.initDoc
  else
    match dictGet c.keywords name with
    | .error e => .error e
    | .ok kw =>
      let doc := pvDoc kw
      match getRobotTags kw with
      | .error e => .error e
      | .ok tags =>
        if tags ≠ [] ∧ ¬ c.tagsSupported then
          let tagLine := "Tags: " ++ String.intercalate ", " tags
          .ok (if doc ≠ "" then doc ++ "\n\n" ++ tagLine else tagLine)
        else
          .ok doc

/-- The descriptor list as the spec words it: each mandatory parameter name
verbatim, then each defaulted parameter rendered `"name=defaultValue"`, then
`"*name"` for a variadic positional parameter, then `"**name"` for a variadic
keyword parameter, with the first (self) parameter dropped for a bound
method. -/
def specArgumentDescriptors (f : KwFunc) : List String :=
  let ps := if f.isMethod then f.argNames.drop 1 else f.argNames
  let m := ps.length - f.defaults.length
  ps.take m
    ++ ((ps.drop m).zip f.defaults).map (fun nv => nv.1 ++ "=" ++ nv.2.pystr)
    ++ (match f.varargs with | some va => ["*" ++ va] | none => [])
    ++ (match f.kwargsName with | some kwn => ["**" ++ kwn] | none => [])

/-! ### Concrete providers and registries used by the witnesses -/

/-- A callable decorated with `@keyword`: `robot_name` and `robot_tags` are
set; the body returns `None`. -/
def mkKw (rn : Option String) (tags : List String) (doc : String)
    (meth : Bool) (argNames : List String) (defaults : List Val)
    (va kwn : Option String) : KwFunc :=
  { hasRobotName := true, robotName := rn, robotTags := tags, doc := doc,
    isMethod := meth, argNames := argNames, defaults := defaults,
    varargs := va, kwargsName := kwn, body := fun _ _ => .ok .vnone }

/-- Provider-declared version of the colliding keyword `shared`. -/
def sharedProvKw : KwFunc := mkKw none [] "provider version" true ["self"] [] none none

/-- Self-declared version of the colliding keyword `shared`. -/
def sharedSelfKw : KwFunc := mkKw none [] "self version" true ["self"] [] none none

/-- The keyword of the first disjoint provider. -/
def alphaKw : KwFunc := mkKw none [] "" true ["self"] [] none none

/-- The keyword of the second disjoint provider. -/
def betaKw : KwFunc := mkKw none [] "" true ["self"] [] none none

/-- A self-declared keyword with no collision. -/
def selfOnlyKw : KwFunc := mkKw none [] "" true ["self"] [] none none

/-- A provider that declares `shared`. -/
def libProv : Library :=
  { kind := .inst, clsName := "Prov",
    clsMembers := [("shared", .func sharedProvKw)], instMembers := [] }

/-- A provider that declares `kw_one` (plus a filtered-out plain attribute). -/
def libOne : Library :=
  { kind := .inst, clsName := "One",
    clsMembers := [("kw_one", .func alphaKw), ("helper", .data (.vint 7))],
    instMembers := [] }

/-- A provider that declares `kw_two`. -/
def libTwo : Library :=
  { kind := .inst, clsName := "Two",
    clsMembers := [("kw_two", .func betaKw)], instMembers := [] }

/-- The registry object as a provider: declares `kw_self` and `shared`. -/
def libSelf : Library :=
  { kind := .inst, clsName := "MyLibrary",
    clsMembers := [("shared", .func sharedSelfKw),
                   ("kw_self", .func selfOnlyKw)],
    instMembers := [("keywords", .data .vnone)] }

/-- A two-mandatory-parameter module-level keyword returning the sum of its
integer arguments. -/
def addKw : KwFunc :=
  { hasRobotName := true, robotName := none, robotTags := [], doc := "",
    isMethod := false, argNames := ["x", "y"], defaults := [], varargs := none,
    kwargsName := none,
    body := fun args _ =>
      match args with
      | [.vint a, .vint b] => .ok (.vint (a + b))
      | _ => .error (.typeError "unsupported operand") }

/-- A keyword with tags `["a", "b"]` and empty documentation. -/
def taggedKw : KwFunc := mkKw none ["a", "b"] "" true ["self"] [] none none

/-- A keyword with a tag and non-empty documentation. -/
def docTaggedKw : KwFunc := mkKw none ["t1"] "Does things." true ["self"] [] none none

/-- A keyword with parameters `(a, b=1, *c, **d)`. -/
def spreadKw : KwFunc :=
  { hasRobotName := true, robotName := none, robotTags := [], doc := "",
    isMethod := false, argNames := ["a", "b"], defaults := [.vint 1],
    varargs := some "c", kwargsName := some "d", body := fun _ _ => .ok .vnone }

/-- The registry's `__init__` as a bound method. -/
def initKw : KwFunc := mkKw none [] "" true ["self", "libraries"] [] none none

/-- A concrete dispatcher state used by the witnesses. -/
def exCore : Core :=
  { clsName := "MyLibrary",
    keywords := [("add", .func addKw), ("tagged", .func taggedKw),
                 ("documented", .func docTaggedKw), ("spread", .func spreadKw)],
    tagsSupported := false, selfDoc := "Intro.", initDoc := "Init.",
    initFunc := initKw }

/-- A bare class supplied as a provider. -/
def badClassLib : Library :=
  { kind := .cls, clsName := "SomeClass", clsMembers := [], instMembers := [] }

/-- An instance provider whose name `prop` exists both on the class and in
the instance state, with different values. -/
def propLib : Library :=
  { kind := .inst, clsName := "WithProp",
    clsMembers := [("prop", .data (.vstr "class side")),
                   ("kw_p", .func alphaKw)],
    instMembers := [("prop", .data (.vstr "instance side")),
                    ("extra", .data .vnone)] }

/-- The registry built from providers `libOne`, `libTwo` and self object
`libSelf`. -/
def c5core : Core :=
  { clsName := "MyLibrary",
    keywords := [("kw_one", .func alphaKw), ("kw_two", .func betaKw),
                 ("kw_self", .func selfOnlyKw), ("shared", .func sharedSelfKw)],
    tagsSupported := false, selfDoc := "Intro.", initDoc := "Init.",
    initFunc := initKw }

/-! ### Dict lemmas -/

theorem dictLookup_nil (k : String) : dictLookup [] k = none := rfl

theorem dictLookup_cons (kv : String × PyVal) (d : List (String × PyVal))
    (k : String) :
    dictLookup (kv :: d) k = if kv.1 = k then some kv.2 else dictLookup d k := by
  by_cases h : kv.1 = k <;> simp [dictLookup, List.find?, h]

theorem dictLookup_dictInsert (d : List (String × PyVal)) (k : String)
    (v : PyVal) (k' : String) :
    dictLookup (dictInsert d k v) k' =
      if k = k' then some v else dictLookup d k' := by
  induction d with
  | nil => by_cases h : k = k' <;> simp [dictInsert, dictLookup_cons, h]
  | cons kv rest ih =>
    simp only [dictInsert]
    by_cases hkv : kv.1 = k
    · rw [if_pos hkv, dictLookup_cons, dictLookup_cons]
      by_cases h : k = k'
      · simp [h]
      · have hkv' : ¬ kv.1 = k' := by rw [hkv]; exact h
        simp [h, hkv']
    · rw [if_neg hkv, dictLookup_cons, ih, dictLookup_cons]
      by_cases h : kv.1 = k'
      · have hne : ¬ k = k' := fun he => hkv (he ▸ h)
        simp [h, hne]
      · simp [h]

theorem dictLookup_dictUpdate (ps : List (String × PyVal)) :
    ∀ (d : List (String × PyVal)) (k : String),
      dictLookup (dictUpdate d ps) k = optOr (lastVal ps k) (dictLookup d k) := by
  induction ps with
  | nil => intro d k; simp [dictUpdate, lastVal, optOr]
  | cons kv ps ih =>
    intro d k
    have step : dictUpdate d (kv :: ps) = dictUpdate (dictInsert d kv.1 kv.2) ps := rfl
    rw [step, ih, dictLookup_dictInsert]
    cases hps : lastVal ps k with
    | some v => simp [lastVal, hps, optOr]
    | none =>
      by_cases h : kv.1 = k <;> simp [lastVal, hps, optOr, h]

theorem dictLookup_dictOf (ps : List (String × PyVal)) (k : String) :
    dictLookup (dictOf ps) k = lastVal ps k := by
  rw [dictOf, dictLookup_dictUpdate]
  cases lastVal ps k <;> simp [optOr, dictLookup_nil]

theorem mem_dictKeys_dictInsert (d : List (String × PyVal)) (k : String)
    (v : PyVal) (k' : String) :
    k' ∈ dictKeys (dictInsert d k v) ↔ k' ∈ dictKeys d ∨ k' = k := by
  induction d with
  | nil => simp [dictInsert, dictKeys]
  | cons kv rest ih =>
    by_cases hkv : kv.1 = k
    · simp only [dictInsert, if_pos hkv, dictKeys, List.map_cons, List.mem_cons]
      rw [← hkv]
      tauto
    · simp only [dictInsert, if_neg hkv, dictKeys, List.map_cons, List.mem_cons] at *
      rw [ih]
      tauto

theorem nodup_dictKeys_dictInsert (d : List (String × PyVal)) (k : String)
    (v : PyVal) (h : (dictKeys d).Nodup) : (dictKeys (dictInsert d k v)).Nodup := by
  induction d with
  | nil => simp [dictInsert, dictKeys]
  | cons kv rest ih =>
    simp only [dictKeys, List.map_cons, List.nodup_cons] at h
    by_cases hkv : kv.1 = k
    · simp only [dictInsert, if_pos hkv, dictKeys, List.map_cons, List.nodup_cons]
      exact ⟨hkv ▸ h.1, h.2⟩
    · simp only [dictInsert, if_neg hkv, dictKeys, List.map_cons, List.nodup_cons]
      refine ⟨fun hmem => ?_, ih h.2⟩
      rcases (mem_dictKeys_dictInsert rest k v kv.1).1 hmem with hm | hm
      · exact h.1 hm
      · exact hkv hm

theorem dictKeys_append (a b : List (String × PyVal)) :
    dictKeys (a ++ b) = dictKeys a ++ dictKeys b :=
  List.map_append _ a b

theorem nodup_dictKeys_dictUpdate (ps : List (String × PyVal)) :
    ∀ d, (dictKeys d).Nodup → (dictKeys (dictUpdate d ps)).Nodup := by
  induction ps with
  | nil => intro d h; exact h
  | cons kv ps ih =>
    intro d h
    exact ih (dictInsert d kv.1 kv.2) (nodup_dictKeys_dictInsert d kv.1 kv.2 h)

theorem nodup_dictKeys_dictOf (ps : List (String × PyVal)) :
    (dictKeys (dictOf ps)).Nodup :=
  nodup_dictKeys_dictUpdate ps [] (by simp [dictKeys])

theorem mem_dictKeys_dictUpdate (ps : List (String × PyVal)) :
    ∀ (d : List (String × PyVal)) (n : String),
      n ∈ dictKeys (dictUpdate d ps) ↔ n ∈ dictKeys d ∨ n ∈ dictKeys ps := by
  induction ps with
  | nil => intro d n; simp [dictUpdate, dictKeys]
  | cons kv ps ih =>
    intro d n
    have step : dictUpdate d (kv :: ps) =
      dictUpdate (dictInsert d kv.1 kv.2) ps := rfl
    rw [step, ih, mem_dictKeys_dictInsert]
    simp only [dictKeys, List.map_cons, List.mem_cons]
    tauto

theorem mem_dictKeys_dictOf (ps : List (String × PyVal)) (n : String) :
    n ∈ dictKeys (dictOf ps) ↔ n ∈ dictKeys ps := by
  rw [dictOf, mem_dictKeys_dictUpdate]
  simp [dictKeys]

/-! ### Sorting lemmas -/

theorem charListLt_iff (as bs : List Char) :
    charListLt as bs = true ↔ List.Lex (· < ·) as bs := by
  induction as generalizing bs with
  | nil =>
    cases bs with
    | nil => exact iff_of_false (by simp [charListLt]) (List.Lex.not_nil_right _ _)
    | cons b bs => exact iff_of_true rfl List.Lex.nil
  | cons a as ih =>
    cases bs with
    | nil => exact iff_of_false (by simp [charListLt]) (List.Lex.not_nil_right _ _)
    | cons b bs =>
      simp only [charListLt]
      by_cases hab : a < b
      · exact iff_of_true (by simp [hab]) (List.Lex.rel hab)
      · by_cases heq : a = b
        · subst heq
          rw [if_neg hab, if_pos rfl, ih]
          exact (List.Lex.cons_iff).symm
        · rw [if_neg hab, if_neg heq]
          refine iff_of_false (by simp) (fun h => ?_)
          cases h with
          | rel h' => exact hab h'
          | cons h' => exact heq rfl

theorem pyStrLe_iff_le (a b : String) : pyStrLe a b = true ↔ a ≤ b := by
  have hlt : (charListLt b.data a.data = true) ↔ b < a :=
    (charListLt_iff b.data a.data).trans (String.lt_iff_toList_lt).symm
  cases hc : charListLt b.data a.data with
  | true => simp [pyStrLe, hc, not_le.mpr (hlt.mp hc)]
  | false =>
    have hba : ¬ b < a := fun h => by rw [hlt.mpr h] at hc; cases hc
    simp [pyStrLe, hc, not_lt.mp hba]

theorem pysorted_perm (l : List String) : List.Perm (pysorted l) l :=
  List.perm_insertionSort _ l

theorem pysorted_sorted_le (l : List String) :
    List.Sorted (· ≤ ·) (pysorted l) := by
  haveI htot : IsTotal String (fun a b => pyStrLe a b = true) := ⟨fun a b => by
    rcases le_total a b with h | h
    · exact Or.inl ((pyStrLe_iff_le a b).mpr h)
    · exact Or.inr ((pyStrLe_iff_le b a).mpr h)⟩
  haveI htr : IsTrans String (fun a b => pyStrLe a b = true) := ⟨fun a b c hab hbc =>
    (pyStrLe_iff_le a c).mpr
      (le_trans ((pyStrLe_iff_le a b).mp hab) ((pyStrLe_iff_le b c).mp hbc))⟩
  exact (List.sorted_insertionSort (fun a b => pyStrLe a b = true) l).imp
    (fun hab => (pyStrLe_iff_le _ _).mp hab)

theorem pysorted_nodup (l : List String) (h : l.Nodup) : (pysorted l).Nodup :=
  (pysorted_perm l).nodup_iff.mpr h

theorem pysorted_sorted_lt (l : List String) (h : l.Nodup) :
    List.Sorted (· < ·) (pysorted l) :=
  List.Sorted.lt_of_le (pysorted_sorted_le l) (pysorted_nodup l h)

theorem mem_pysorted (l : List String) (n : String) :
    n ∈ pysorted l ↔ n ∈ l :=
  (pysorted_perm l).mem_iff

/-! ### Construction lemmas -/

theorem get_keyword_tags_snd (c : Core) (name : String) :
    (get_keyword_tags c name).2 = { c with tagsSupported := true } := by
  cases hl : dictLookup c.keywords name <;> simp [get_keyword_tags, hl]

theorem mkKeywords_ok (selfLib : Library) (libs : List Library)
    (kws : List (String × PyVal)) (h : mkKeywords selfLib libs = .ok kws) :
    ∃ ps ss, findKeywords libs = .ok ps ∧ findKeywords [selfLib] = .ok ss ∧
      kws = dictUpdate (dictOf ps) ss := by
  cases hps : findKeywords libs with
  | error e =>
    simp only [mkKeywords, hps] at h
    exact Except.noConfusion h
  | ok ps =>
    cases hss : findKeywords [selfLib] with
    | error e =>
      simp only [mkKeywords, hps, hss] at h
      exact Except.noConfusion h
    | ok ss =>
      simp only [mkKeywords, hps, hss] at h
      have h' : (Except.ok (dictUpdate (dictOf ps) ss) : Except PyErr _) = .ok kws := h
      injection h' with h''
      exact ⟨ps, ss, rfl, rfl, h''.symm⟩

theorem mkCore_ok (selfLib : Library) (sd idoc : String) (iF : KwFunc)
    (libs : List Library) (c : Core)
    (h : mkCore selfLib sd idoc iF libs = .ok c) :
    mkKeywords selfLib libs = .ok c.keywords ∧ c.tagsSupported = false ∧
      c.clsName = selfLib.clsName ∧ c.selfDoc = sd ∧ c.initDoc = idoc := by
  cases hk : mkKeywords selfLib libs with
  | error e =>
    simp only [mkCore, hk] at h
    exact Except.noConfusion h
  | ok kws =>
    simp only [mkCore, hk] at h
    have h' : (Except.ok (Core.mk selfLib.clsName kws false sd idoc iF) :
        Except PyErr Core) = .ok c := h
    injection h' with h''
    subst h''
    exact ⟨rfl, rfl, rfl, rfl, rfl⟩

theorem findKeywords_mem (libs : List Library) :
    ∀ (ps : List (String × PyVal)), findKeywords libs = .ok ps →
    ∀ n, n ∈ dictKeys ps ↔
      ∃ lib ∈ libs, ∃ es, exposedOf lib = .ok es ∧ n ∈ dictKeys es := by
  induction libs with
  | nil =>
    intro ps h n
    have h' : (Except.ok [] : Except PyErr (List (String × PyVal))) = .ok ps := h
    injection h' with h''
    subst h''
    simp [dictKeys]
  | cons l ls ih =>
    intro ps h n
    cases hes : exposedOf l with
    | error e =>
      simp only [findKeywords, hes] at h
      exact Except.noConfusion h
    | ok es =>
      cases hb : findKeywords ls with
      | error e =>
        simp only [findKeywords, hes, hb] at h
        exact Except.noConfusion h
      | ok b =>
        simp only [findKeywords, hes, hb] at h
        have hps : es ++ b = ps := by simpa using h
        subst hps
        rw [dictKeys_append, List.mem_append, ih b hb n]
        constructor
        · rintro (hm | ⟨lib, hlib, es', hes', hm'⟩)
          · exact ⟨l, List.mem_cons_self l ls, es, hes, hm⟩
          · exact ⟨lib, List.mem_cons_of_mem l hlib, es', hes', hm'⟩
        · rintro ⟨lib, hlib, es', hes', hm'⟩
          rcases List.mem_cons.mp hlib with rfl | hlib
          · rw [hes] at hes'
            injection hes' with he
            subst he
            exact Or.inl hm'
          · exact Or.inr ⟨lib, hlib, es', hes', hm'⟩

/-! ### The claims -/

/-- Claim C1: registry construction merges the providers' exposed-callable
pairs in provider order into a dict (so on a name collision the LAST pair —
the later provider — fixes the value), then merges the registry object's own
exposed pairs last: the final mapping at each name is the self-declared
callable when the name is self-declared, otherwise the last
provider-declared callable.  In particular, on any collision between a
provider-declared and a self-declared keyword, the self-declared callable is
retained. -/
theorem C1_merge_order_self_overrides (selfLib : Library) (libs : List Library)
    (ps ss kws : List (String × PyVal))
    (hps : findKeywords libs = .ok ps)
    (hss : findKeywords [selfLib] = .ok ss)
    (hk : mkKeywords selfLib libs = .ok kws) (n : String) :
    dictLookup kws n = optOr (lastVal ss n) (lastVal ps n) ∧
    (∀ v, lastVal ss n = some v → dictLookup kws n = some v) := by
  obtain ⟨ps', ss', hps', hss', hk'⟩ := mkKeywords_ok selfLib libs kws hk
  rw [hps'] at hps
  rw [hss'] at hss
  cases hps
  cases hss
  subst hk'
  rw [dictLookup_dictUpdate, dictLookup_dictOf]
  refine ⟨rfl, fun v hv => ?_⟩
  rw [hv]
  rfl

/-- Witness for C1 at libraries `[libProv]` and self object `libSelf`:
both declare `shared`, and the merged mapping retains the self-declared
callable. -/
theorem C1_witness :
    findKeywords [libProv] = .ok [("shared", .func sharedProvKw)] ∧
    findKeywords [libSelf] =
      .ok [("kw_self", .func selfOnlyKw), ("shared", .func sharedSelfKw)] ∧
    mkKeywords libSelf [libProv] =
      .ok [("shared", .func sharedSelfKw), ("kw_self", .func selfOnlyKw)] ∧
    dictLookup [("shared", .func sharedSelfKw), ("kw_self", .func selfOnlyKw)]
        "shared" =
      optOr (lastVal [("kw_self", .func selfOnlyKw),
                      ("shared", .func sharedSelfKw)] "shared")
            (lastVal [("shared", .func sharedProvKw)] "shared") :=
  ⟨rfl, rfl, rfl,
    (C1_merge_order_self_overrides libSelf [libProv] _ _ _ rfl rfl rfl "shared").1⟩

/-- Claim C2: for a keyword with tags `["a", "b"]`, as long as
`get_keyword_tags` has never been called on the registry instance,
`get_keyword_documentation` returns exactly `"Tags: a, b"` when the
documentation is empty, and appends the tags line after a blank line when it
is non-empty; after any `get_keyword_tags` call the bare documentation is
returned with no tags appended. -/
theorem C2_tags_in_documentation (c : Core) (name : String) (f : KwFunc)
    (hflag : c.tagsSupported = false)
    (hl : dictLookup c.keywords name = some (.func f))
    (hrn : f.hasRobotName = true)
    (htags : f.robotTags = ["a", "b"])
    (hn1 : name ≠ "__intro__") (hn2 : name ≠ "__init__") :
    (f.doc = "" → get_keyword_documentation c name = .ok "Tags: a, b") ∧
    (f.doc ≠ "" → get_keyword_documentation c name =
      .ok (f.doc ++ "\n\n" ++ "Tags: a, b")) ∧
    (∀ n', get_keyword_documentation ((get_keyword_tags c n').2) name =
      .ok f.doc) := by
  have hline : ("Tags: " ++ String.intercalate ", " ["a", "b"] : String)
      = "Tags: a, b" := rfl
  have hmain : get_keyword_documentation c name =
      .ok (if f.doc ≠ "" then f.doc ++ "\n\n" ++ "Tags: a, b"
           else "Tags: a, b") := by
    simp only [get_keyword_documentation, if_neg hn1, if_neg hn2, dictGet, hl,
      getRobotTags, hrn, if_pos, pvDoc, htags, hflag, hline]
    simp [hline]
  refine ⟨fun hd => ?_, fun hd => ?_, fun n' => ?_⟩
  · rw [hmain, if_neg (by simp [hd])]
  · rw [hmain, if_pos hd]
  · rw [get_keyword_tags_snd]
    simp only [get_keyword_documentation, if_neg hn1, if_neg hn2, dictGet, hl,
      getRobotTags, hrn, pvDoc, htags]
    simp

/-- Witness for C2 on the concrete registry `exCore` and its keyword
`tagged` (tags `["a", "b"]`, empty documentation). -/
theorem C2_witness :
    exCore.tagsSupported = false ∧
    dictLookup exCore.keywords "tagged" = some (.func taggedKw) ∧
    taggedKw.robotTags = ["a", "b"] ∧ taggedKw.doc = "" ∧
    get_keyword_documentation exCore "tagged" = .ok "Tags: a, b" ∧
    get_keyword_documentation ((get_keyword_tags exCore "tagged").2) "tagged" =
      .ok "" :=
  ⟨rfl, rfl, rfl, rfl,
    (C2_tags_in_documentation exCore "tagged" taggedKw rfl rfl rfl rfl
      (by decide) (by decide)).1 rfl,
    (C2_tags_in_documentation exCore "tagged" taggedKw rfl rfl rfl rfl
      (by decide) (by decide)).2.2 "tagged"⟩

/-- Claim C3: for every registered keyword, `get_keyword_arguments` returns
exactly the descriptor list the spec describes; in particular a callable with
parameters `(a, b=1, *c, **d)` yields `["a", "b=1", "*c", "**d"]`. -/
theorem C3_keyword_arguments (c : Core) (name : String) (f : KwFunc)
    (hn : name ≠ "__init__")
    (hl : dictLookup c.keywords name = some (.func f)) :
    get_keyword_arguments c name = .ok (specArgumentDescriptors f) ∧
    specArgumentDescriptors spreadKw = ["a", "b=1", "*c", "**d"] := by
  refine ⟨?_, rfl⟩
  simp only [get_keyword_arguments, if_neg hn, dictGet, hl, asFunc,
    get_arg_spec, specArgumentDescriptors]

/-- Witness for C3 on `exCore`'s keyword `spread`, whose parameters are
`(a, b=1, *c, **d)`. -/
theorem C3_witness :
    dictLookup exCore.keywords "spread" = some (.func spreadKw) ∧
    get_keyword_arguments exCore "spread" =
      .ok (specArgumentDescriptors spreadKw) ∧
    get_keyword_arguments exCore "spread" = .ok ["a", "b=1", "*c", "**d"] :=
  ⟨rfl,
    (C3_keyword_arguments exCore "spread" spreadKw (by decide) rfl).1, rfl⟩

/-- Claim C4: `run_keyword` returns exactly what calling the registered
value produces — value or failure, with no wrapping, translation or retry —
and in particular a two-mandatory-parameter keyword returns its own result on
two positional arguments and propagates the arity `TypeError` on one. -/
theorem C4_run_keyword_pass_through (c : Core) (name : String) (v : PyVal)
    (args : List Val) (kwargs : List (String × Val))
    (hl : dictLookup c.keywords name = some v) :
    run_keyword c name args kwargs = callVal v args kwargs ∧
    run_keyword exCore "add" [.vint 1, .vint 2] [] = .ok (.vint 3) ∧
    run_keyword exCore "add" [.vint 1] [] =
      .error (.typeError "missing required positional argument") := by
  refine ⟨?_, rfl, rfl⟩
  simp [run_keyword, dictGet, hl]

/-- Witness for C4 on `exCore`'s two-argument keyword `add`. -/
theorem C4_witness :
    dictLookup exCore.keywords "add" = some (.func addKw) ∧
    run_keyword exCore "add" [.vint 2, .vint 3] [] =
      callVal (.func addKw) [.vint 2, .vint 3] [] ∧
    run_keyword exCore "add" [.vint 2, .vint 3] [] = .ok (.vint 5) :=
  ⟨rfl,
    (C4_run_keyword_pass_through exCore "add" (.func addKw)
      [.vint 2, .vint 3] [] rfl).1, rfl⟩

/-- Claim C5: `get_keyword_names` is strictly sorted with no duplicates for
any successfully constructed registry, and a name is listed exactly when some
provider, or the registry object itself, exposes it — so for disjointly named
providers plus a self-declared operation the names are exactly the union of
all the exposed names. -/
theorem C5_names_sorted_unique_union (selfLib : Library) (sd idoc : String)
    (iF : KwFunc) (libs : List Library) (c : Core)
    (h : mkCore selfLib sd idoc iF libs = .ok c) :
    List.Sorted (· < ·) (get_keyword_names c) ∧
    (get_keyword_names c).Nodup ∧
    (∀ n, n ∈ get_keyword_names c ↔
      ((∃ lib ∈ libs, ∃ es, exposedOf lib = .ok es ∧ n ∈ dictKeys es) ∨
        (∃ es, exposedOf selfLib = .ok es ∧ n ∈ dictKeys es))) := by
  obtain ⟨hkw, -, -, -, -⟩ := mkCore_ok selfLib sd idoc iF libs c h
  obtain ⟨ps, ss, hps, hss, hkeq⟩ := mkKeywords_ok selfLib libs c.keywords hkw
  have hnodup : (dictKeys c.keywords).Nodup := by
    rw [hkeq]
    exact nodup_dictKeys_dictUpdate ss (dictOf ps) (nodup_dictKeys_dictOf ps)
  refine ⟨pysorted_sorted_lt _ hnodup, pysorted_nodup _ hnodup, fun n => ?_⟩
  rw [get_keyword_names, mem_pysorted, hkeq, mem_dictKeys_dictUpdate,
    mem_dictKeys_dictOf, findKeywords_mem libs ps hps n,
    findKeywords_mem [selfLib] ss hss n]
  simp

/-- Witness for C5: two disjointly named providers plus the self-declared
operations produce exactly the union of the exposed names, strictly
sorted. -/
theorem C5_witness :
    mkCore libSelf "Intro." "Init." initKw [libOne, libTwo] = .ok c5core ∧
    get_keyword_names c5core = ["kw_one", "kw_self", "kw_two", "shared"] ∧
    List.Sorted (· < ·) (get_keyword_names c5core) :=
  ⟨rfl, rfl,
    (C5_names_sorted_unique_union libSelf "Intro." "Init." initKw
      [libOne, libTwo] c5core rfl).1⟩

/-- Claim C6: a bare class among the providers makes registry construction
fail — no registry is produced — with the `TypeError` whose message names
that class, provided every provider before it enumerates successfully. -/
theorem C6_bare_class_rejected (selfLib : Library) (sd idoc : String)
    (iF : KwFunc) (pre post : List Library) (lib : Library)
    (hkind : lib.kind = .cls)
    (hpre : ∀ l ∈ pre, ∃ es, exposedOf l = .ok es) :
    mkCore selfLib sd idoc iF (pre ++ lib :: post) =
      .error (.typeError ("Libraries must be modules or instances, got class "
        ++ pyrepr lib.clsName ++ " instead.")) := by
  have hlib : exposedOf lib = .error
      (.typeError ("Libraries must be modules or instances, got class "
        ++ pyrepr lib.clsName ++ " instead.")) := by
    simp [exposedOf, getMembers, hkind]
  have hfind : ∀ (pres : List Library),
      (∀ l ∈ pres, ∃ es, exposedOf l = .ok es) →
      findKeywords (pres ++ lib :: post) = .error
        (.typeError ("Libraries must be modules or instances, got class "
          ++ pyrepr lib.clsName ++ " instead.")) := by
    intro pres
    induction pres with
    | nil =>
      intro _
      simp only [List.nil_append, findKeywords, hlib]
    | cons l ls ih =>
      intro hp
      obtain ⟨es, hes⟩ := hp l (List.mem_cons_self l ls)
      have ih' := ih (fun x hx => hp x (List.mem_cons_of_mem l hx))
      simp only [List.cons_append, findKeywords, hes, List.append_eq, ih']
  simp [mkCore, mkKeywords, hfind pre hpre]

/-- Witness for C6: constructing with a valid provider followed by the bare
class `SomeClass` fails with the `TypeError` naming `SomeClass`. -/
theorem C6_witness :
    badClassLib.kind = .cls ∧
    mkCore libSelf "Intro." "Init." initKw [libOne, badClassLib] =
      .error (.typeError
        "Libraries must be modules or instances, got class 'SomeClass' instead.") :=
  ⟨rfl,
    C6_bare_class_rejected libSelf "Intro." "Init." initKw [libOne] []
      badClassLib rfl (fun l hl => by
        rw [List.mem_singleton.mp hl]
        exact ⟨[("kw_one", .func alphaKw)], rfl⟩)⟩

/-- Claim C7: within attribute-fallback resolution, a name present in the
mapping resolves to the registered callable; a name absent from both the
object's real attributes and the mapping fails with `AttributeError` naming
the missing attribute and the owning type. -/
theorem C7_attribute_fallback (c : Core) (real : List (String × PyVal))
    (name : String) :
    (∀ v, dictLookup c.keywords name = some v →
      getattrFallback c name = .ok v) ∧
    (dictLookup real name = none → dictLookup c.keywords name = none →
      resolveAttr c real name = .error (.attributeError
        (pyrepr c.clsName ++ " object has no attribute " ++ pyrepr name))) := by
  refine ⟨fun v hv => ?_, fun h1 h2 => ?_⟩
  · simp [getattrFallback, hv]
  · simp [resolveAttr, h1, getattrFallback, h2]

/-- Witness for C7 on `exCore`: a registered name resolves through the
fallback, a fully absent name fails with the formatted `AttributeError`. -/
theorem C7_witness :
    getattrFallback exCore "add" = .ok (.func addKw) ∧
    resolveAttr exCore [("keywords", .data .vnone)] "absent" =
      .error (.attributeError
        "'MyLibrary' object has no attribute 'absent'") :=
  ⟨(C7_attribute_fallback exCore [] "add").1 (.func addKw) rfl,
    (C7_attribute_fallback exCore [("keywords", .data .vnone)] "absent").2
      rfl rfl⟩

/-- Claim C8: enumerating an instance provider yields one (name, value) pair
per attribute name, in sorted name order with no duplicates, the names being
exactly those reachable from the class plus the instance-local ones; each
value is resolved from the defining class when the class exposes the name,
otherwise from the instance.  The model's sequence is a finite list and
re-enumeration is the same pure function applied twice, so finiteness and
restartability hold by construction; the Python generator's laziness has no
observable counterpart in this embedding. -/
theorem C8_instance_member_enumeration (lib : Library)
    (hk : lib.kind = .inst) :
    getMembers lib = .ok (get_members_from_instannce lib) ∧
    (get_members_from_instannce lib).map Prod.fst = dirNames lib ∧
    List.Sorted (· ≤ ·) (dirNames lib) ∧ (dirNames lib).Nodup ∧
    (∀ n, n ∈ dirNames lib ↔
      (n ∈ lib.clsMembers.map Prod.fst ∨ n ∈ lib.instMembers.map Prod.fst)) ∧
    (∀ n v, (n, v) ∈ get_members_from_instannce lib →
      (∀ w, clsLookup lib n = some w → v = w) ∧
      (clsLookup lib n = none → (instLookup lib n).getD (.data .vnone) = v)) := by
  refine ⟨by simp [getMembers, hk], ?_, pysorted_sorted_le _,
    pysorted_nodup _ (List.nodup_dedup _), fun n => ?_, fun n v hm => ?_⟩
  · have hcomp : (Prod.fst ∘ fun n =>
        (n, match clsLookup lib n with
            | some v => v
            | none => (instLookup lib n).getD (PyVal.data Val.vnone))) =
        fun n : String => n := rfl
    simp [get_members_from_instannce, List.map_map, hcomp]
  · rw [dirNames, mem_pysorted, List.mem_dedup, List.mem_append]
  · simp only [get_members_from_instannce, List.mem_map] at hm
    obtain ⟨m, hmem, hpair⟩ := hm
    injection hpair with h1 h2
    subst h1
    subst h2
    constructor
    · intro w hw
      rw [hw]
    · intro hnone
      rw [hnone]

/-- Witness for C8 on `propLib`: enumeration is sorted by name, one pair per
name, and `prop` is resolved from the class, not the instance. -/
theorem C8_witness :
    propLib.kind = .inst ∧
    getMembers propLib = .ok (get_members_from_instannce propLib) ∧
    get_members_from_instannce propLib =
      [("extra", .data .vnone), ("kw_p", .func alphaKw),
       ("prop", .data (.vstr "class side"))] :=
  ⟨rfl, (C8_instance_member_enumeration propLib rfl).1, rfl⟩

/-- Claim C9 (amended): for a name not in the mapping, `run_keyword`,
`get_keyword_arguments` (names other than `__init__`) and `get_keyword_tags`
fail with `KeyError` carrying the name; `run_keyword` and
`get_keyword_arguments` leave the registry unchanged (they are pure reads),
but a failed `get_keyword_tags` call still sets the registry-wide
tag-support flag, because the flag assignment precedes the lookup. -/
theorem C9_missing_name_key_error (c : Core) (name : String) (args : List Val)
    (kwargs : List (String × Val))
    (h : dictLookup c.keywords name = none) :
    run_keyword c name args kwargs = .error (.keyError name) ∧
    (name ≠ "__init__" → get_keyword_arguments c name =
      .error (.keyError name)) ∧
    (get_keyword_tags c name).1 = .error (.keyError name) ∧
    (get_keyword_tags c name).2 = { c with tagsSupported := true } := by
  refine ⟨?_, fun hn => ?_, ?_, get_keyword_tags_snd c name⟩
  · simp [run_keyword, dictGet, h]
  · simp [get_keyword_arguments, if_neg hn, dictGet, h]
  · simp [get_keyword_tags, h]

/-- Counterexample to C9 as stated: the registry state is NOT unchanged by
every failed call — a `get_keyword_tags` call on the missing name `"missing"`
raises `KeyError` yet flips the registry-wide tag-support flag. -/
theorem C9_counterexample :
    dictLookup exCore.keywords "missing" = none ∧
    (get_keyword_tags exCore "missing").1 = .error (.keyError "missing") ∧
    exCore.tagsSupported = false ∧
    (get_keyword_tags exCore "missing").2.tagsSupported = true ∧
    (get_keyword_tags exCore "missing").2 ≠ exCore :=
  ⟨rfl, rfl, rfl, rfl,
    fun h => Bool.noConfusion (congrArg Core.tagsSupported h)⟩

/-- Witness for the amended C9 on `exCore` at the missing name. -/
theorem C9_witness :
    dictLookup exCore.keywords "missing" = none ∧
    run_keyword exCore "missing" [] [] = .error (.keyError "missing") ∧
    get_keyword_arguments exCore "missing" = .error (.keyError "missing") :=
  ⟨rfl,
    (C9_missing_name_key_error exCore "missing" [] [] rfl).1,
    (C9_missing_name_key_error exCore "missing" [] [] rfl).2.1 (by decide)⟩

/-- Claim C10: the tag-support flag is registry-wide: after
`get_keyword_tags` is called for ANY keyword `a`, `get_keyword_documentation`
returns the bare documentation for EVERY keyword `b`, tags or not. -/
theorem C10_flag_is_registry_wide (c : Core) (a b : String) (f : KwFunc)
    (hb : dictLookup c.keywords b = some (.func f))
    (hrn : f.hasRobotName = true)
    (hn1 : b ≠ "__intro__") (hn2 : b ≠ "__init__") :
    get_keyword_documentation ((get_keyword_tags c a).2) b = .ok f.doc := by
  rw [get_keyword_tags_snd]
  simp only [get_keyword_documentation, if_neg hn1, if_neg hn2, dictGet, hb,
    getRobotTags, hrn, pvDoc]
  simp

/-- Witness for C10: querying the tags of `tagged` suppresses the tags line
in the documentation of the distinct keyword `documented`, whose tags were
never queried. -/
theorem C10_witness :
    dictLookup exCore.keywords "documented" = some (.func docTaggedKw) ∧
    docTaggedKw.robotTags = ["t1"] ∧
    get_keyword_documentation exCore "documented" =
      .ok "Does things.\n\nTags: t1" ∧
    get_keyword_documentation ((get_keyword_tags exCore "tagged").2)
      "documented" = .ok "Does things." :=
  ⟨rfl, rfl, rfl,
    C10_flag_is_registry_wide exCore "tagged" "documented" docTaggedKw rfl rfl
      (by decide) (by decide)⟩

end RobotLibCore
